import Mathlib

/-!
# Verification of `pandevice/predefined.py`

A shallow embedding of the `Predefined` class: a caching retrieval layer for
predefined objects (applications, application containers, services) of a
firewall device.  The class holds three name-keyed mappings, fetches XML
fragments from the device through the parent's transport client (`xapi.get`),
parses them into objects and caches them.

Mappings are modelled as Python dicts via association lists (`insertName`
replaces the value of an existing key in place, otherwise appends — Python
dict update semantics).  The transport client is an oracle
`Device : String → Except PanError Xml` mapping an xpath to the XML root the
device returns, or to an error it raises.  Every operation returns, besides
its Python return value (in `Except`, errors propagate), the successor cache
state and the ordered list of xpaths passed to the transport client.
-/

namespace PanPredefined

/-- A minimal XML element: tag, attributes, children
(models `xml.etree.ElementTree.Element`). -/
inductive Xml where
  | elem (tag : String) (attrs : List (String × String)) (children : List Xml)

/-- The element's tag. -/
def Xml.tag : Xml → String
  | .elem t _ _ => t

/-- The element's attribute list. -/
def Xml.attrs : Xml → List (String × String)
  | .elem _ a _ => a

/-- The element's children, in document order (models iterating the element). -/
def Xml.children : Xml → List Xml
  | .elem _ _ c => c

/-- Attribute lookup (models `Element.get`). -/
def Xml.attr (x : Xml) (k : String) : Option String :=
  x.attrs.lookup k

/-- First direct child with the given tag, none otherwise
(models `Element.find` for a plain tag path). -/
def Xml.find (x : Xml) (t : String) : Option Xml :=
  x.children.find? (fun c => c.tag == t)

/-- The kind of a cached object (which `objects.py` class it is). -/
inductive ObjKind where
  | serviceObject
  | applicationObject
  | applicationContainer
deriving DecidableEq

/-- A parsed predefined object: its kind, its `name` field, and the XML
element it was parsed from (opaque to the cache beyond `name`). -/
structure PanObject where
  kind : ObjKind
  name : String
  source : Xml

/-- Modelled from the spec: the object model (`pandevice/objects.py`, not under
`src/`) provides, per object kind, a `refresh(xml)` factory that parses one XML
element into a populated object exposing at least a `name` field; predefined
entries are `<entry name="...">` elements keyed by their name attribute. -/
def objRefresh (k : ObjKind) (elm : Xml) : PanObject :=
  { kind := k, name := (elm.attr "name").getD "", source := elm }

/-- The name under which an entry element is keyed. -/
def entryName (elm : Xml) : String :=
  (elm.attr "name").getD ""

/-- The names of the entries of a result fragment, in order. -/
def entryNames (xml : Xml) : List String :=
  xml.children.map entryName

/-- Errors a call can raise.  `objectNotFound` is the NotFoundError-class
device error of the transport layer; `transportError` any other transport or
device failure; `pyTypeError` the Python `TypeError` raised when iterating
`None`. -/
inductive PanError where
  | objectNotFound
  | transportError
  | pyTypeError
deriving DecidableEq

/-- The transport client of the parent device: `xapi.get(xpath)` either
returns the XML root of the response or raises. -/
def Device := String → Except PanError Xml

/-- Modelled from the spec: the transport client (the xapi wrapper in
`pandevice/base.py` / `pandevice/errors.py`, not under `src/`) fails with a
NotFoundError-class error when the device reports that no object exists at
the queried xpath. -/
def reportsNoSuchObject (dev : Device) (xpath : String) : Prop :=
  dev xpath = Except.error PanError.objectNotFound

/-- The three mappings of the `Predefined` cache, each name → object
(a Python dict). -/
structure Predefined where
  service_objects : List (String × PanObject)
  application_objects : List (String × PanObject)
  application_container_objects : List (String × PanObject)

/-- The state after `__init__`: three empty dicts. -/
def Predefined.init : Predefined :=
  { service_objects := [], application_objects := [],
    application_container_objects := [] }

/-- Python dict insertion `d[k] = v`: replace the value of an existing key in
place, otherwise append. -/
def insertName (m : List (String × PanObject)) (k : String) (v : PanObject) :
    List (String × PanObject) :=
  match m with
  | [] => [(k, v)]
  | (k', v') :: rest =>
    if k' = k then (k, v) :: rest else (k', v') :: insertName rest k v

/- xpath constants of the class, verbatim. -/

/-- `PREDEFINED_ROOT_XPATH = "/config/predefined"` -/
def PREDEFINED_ROOT_XPATH : String := "/config/predefined"

/-- The part of `ENTRY = "/entry[@name='%s']"` before `%s`. -/
def ENTRY_PRE : String := "/entry[@name='"

/-- The part of `ENTRY` after `%s`. -/
def ENTRY_POST : String := "']"

/-- `ENTRY = "/entry[@name='%s']"` -/
def ENTRY : String := ENTRY_PRE ++ "%s" ++ ENTRY_POST

/-- `SERVICE = "/service"` -/
def SERVICE : String := "/service"

/-- `APPLICATION_CONTAINS_XPATH = '//*[contains(local-name(), "application")]'`
(apps and containers share a namespace, so both are searched). -/
def APPLICATION_CONTAINS_XPATH : String := "//*[contains(local-name(), \"application\")]"

/-- `ALL_APPLICATION_XPATH = PREDEFINED_ROOT_XPATH + APPLICATION_CONTAINS_XPATH` -/
def ALL_APPLICATION_XPATH : String := PREDEFINED_ROOT_XPATH ++ APPLICATION_CONTAINS_XPATH

/-- `ALL_SERVICE_XPATH = PREDEFINED_ROOT_XPATH + SERVICE` -/
def ALL_SERVICE_XPATH : String := PREDEFINED_ROOT_XPATH ++ SERVICE

/-- Python `%`-formatting of a single-entry xpath pattern `base + ENTRY` with
one name: the base contains no percent sign, so `(base + ENTRY) % name`
replaces the unique `%s` of `ENTRY`. -/
def entryXpath (base : String) (name : String) : String :=
  base ++ (ENTRY_PRE ++ (name ++ ENTRY_POST))

/-- `SINGLE_APPLICATION_XPATH % name`
(`SINGLE_APPLICATION_XPATH = ALL_APPLICATION_XPATH + ENTRY`). -/
def single_application_xpath (name : String) : String :=
  entryXpath ALL_APPLICATION_XPATH name

/-- `SINGLE_SERVICE_XPATH % name`
(`SINGLE_SERVICE_XPATH = ALL_SERVICE_XPATH + ENTRY`). -/
def single_service_xpath (name : String) : String :=
  entryXpath ALL_SERVICE_XPATH name

/-- The bulk xpath of `refreshall_applications`:
`ALL_APPLICATION_XPATH + "/entry"`. -/
def all_application_entries_xpath : String := ALL_APPLICATION_XPATH ++ "/entry"

/-- The bulk xpath of `refreshall_services`: `ALL_SERVICE_XPATH + "/entry"`. -/
def all_service_entries_xpath : String := ALL_SERVICE_XPATH ++ "/entry"

/-- `_get_xml`: `root = self.parent.xapi.get(xpath, retry_on_peer=False)`,
then `elm = root.find("result")`, returned possibly-`None`; any transport
error propagates (there is no try/except in the class). -/
def get_xml (dev : Device) (xpath : String) : Except PanError (Option Xml) :=
  match dev xpath with
  | .error e => .error e
  | .ok root => .ok (root.find "result")

/-- One iteration of the `_parse_application_xml` loop: an entry with a
`functions` child is an `ApplicationContainer` and is stored in
`application_container_objects`; otherwise it is an `ApplicationObject` and
is stored in `application_objects`. -/
def parse_application_entry (s : Predefined) (elm : Xml) : Predefined :=
  if (elm.find "functions").isSome then
    let obj := objRefresh .applicationContainer elm
    { s with application_container_objects :=
        insertName s.application_container_objects obj.name obj }
  else
    let obj := objRefresh .applicationObject elm
    { s with application_objects := insertName s.application_objects obj.name obj }

/-- `_parse_application_xml`: loop over the elements of the fragment. -/
def parse_application_xml (s : Predefined) (xml : Xml) : Predefined :=
  xml.children.foldl parse_application_entry s

/-- One iteration of the `_parse_service_xml` loop. -/
def parse_service_entry (s : Predefined) (elm : Xml) : Predefined :=
  let obj := objRefresh .serviceObject elm
  { s with service_objects := insertName s.service_objects obj.name obj }

/-- `_parse_service_xml`: loop over the elements of the fragment. -/
def parse_service_xml (s : Predefined) (xml : Xml) : Predefined :=
  xml.children.foldl parse_service_entry s

/-- `refresh_application(name)`: fetch `SINGLE_APPLICATION_XPATH % name` and
parse the result fragment.  If `_get_xml` returned `None` (no `result` child),
the `for` loop of the parser raises a Python `TypeError`. -/
def refresh_application (dev : Device) (name : String) (s : Predefined) :
    Except PanError Unit × Predefined × List String :=
  let xpath := single_application_xpath name
  match get_xml dev xpath with
  | .error e => (.error e, s, [xpath])
  | .ok none => (.error .pyTypeError, s, [xpath])
  | .ok (some xml) => (.ok (), parse_application_xml s xml, [xpath])

/-- `refresh_service(name)`: fetch `SINGLE_SERVICE_XPATH % name` and parse. -/
def refresh_service (dev : Device) (name : String) (s : Predefined) :
    Except PanError Unit × Predefined × List String :=
  let xpath := single_service_xpath name
  match get_xml dev xpath with
  | .error e => (.error e, s, [xpath])
  | .ok none => (.error .pyTypeError, s, [xpath])
  | .ok (some xml) => (.ok (), parse_service_xml s xml, [xpath])

/-- `refreshall_applications()`: fetch `ALL_APPLICATION_XPATH + "/entry"` and
parse (no clearing — an additive upsert into the two application mappings). -/
def refreshall_applications (dev : Device) (s : Predefined) :
    Except PanError Unit × Predefined × List String :=
  let xpath := all_application_entries_xpath
  match get_xml dev xpath with
  | .error e => (.error e, s, [xpath])
  | .ok none => (.error .pyTypeError, s, [xpath])
  | .ok (some xml) => (.ok (), parse_application_xml s xml, [xpath])

/-- `refreshall_services()`: fetch `ALL_SERVICE_XPATH + "/entry"` and parse. -/
def refreshall_services (dev : Device) (s : Predefined) :
    Except PanError Unit × Predefined × List String :=
  let xpath := all_service_entries_xpath
  match get_xml dev xpath with
  | .error e => (.error e, s, [xpath])
  | .ok none => (.error .pyTypeError, s, [xpath])
  | .ok (some xml) => (.ok (), parse_service_xml s xml, [xpath])

/-- `refreshall()`: first clear all three mappings, then
`refreshall_services()` followed by `refreshall_applications()`. -/
def refreshall (dev : Device) (s : Predefined) :
    Except PanError Unit × Predefined × List String :=
  let s := { s with application_objects := [],
                    application_container_objects := [],
                    service_objects := [] }
  match refreshall_services dev s with
  | (.error e, s1, c1) => (.error e, s1, c1)
  | (.ok _, s1, c1) =>
    match refreshall_applications dev s1 with
    | (r, s2, c2) => (r, s2, c1 ++ c2)

/-- `application(name, refresh_if_none, include_containers)`: look `name` up
in `application_objects`, fall back to `application_container_objects` when
`include_containers`; on a miss with `refresh_if_none`, call
`refresh_application(name)` and recurse once with `refresh_if_none=False`. -/
def application (dev : Device) (name : String)
    (refresh_if_none : Bool) (include_containers : Bool) (s : Predefined) :
    Except PanError (Option PanObject) × Predefined × List String :=
  let obj := s.application_objects.lookup name
  let obj := if obj.isNone && include_containers then
      s.application_container_objects.lookup name
    else obj
  if obj.isNone && refresh_if_none then
    match refresh_application dev name s with
    | (.error e, s1, c1) => (.error e, s1, c1)
    | (.ok _, s1, c1) =>
      let r := application dev name false include_containers s1
      (r.1, r.2.1, c1 ++ r.2.2)
  else
    (.ok obj, s, [])
termination_by (cond refresh_if_none 1 0)
decreasing_by simp_all

/-- `service(name, refresh_if_none)`: look `name` up in `service_objects`;
on a miss with `refresh_if_none`, call `refresh_service(name)` and recurse
once with `refresh_if_none=False`. -/
def service (dev : Device) (name : String) (refresh_if_none : Bool)
    (s : Predefined) :
    Except PanError (Option PanObject) × Predefined × List String :=
  let obj := s.service_objects.lookup name
  if obj.isNone && refresh_if_none then
    match refresh_service dev name s with
    | (.error e, s1, c1) => (.error e, s1, c1)
    | (.ok _, s1, c1) =>
      let r := service dev name false s1
      (r.1, r.2.1, c1 ++ r.2.2)
  else
    (.ok obj, s, [])
termination_by (cond refresh_if_none 1 0)
decreasing_by simp_all

/-- `applications(names, ...)`: iterate over `set(names)` (deduplicated;
modelled in first-occurrence order), collect the found objects. -/
def applications (dev : Device) (names : List String)
    (refresh_if_none : Bool) (include_containers : Bool) (s : Predefined) :
    Except PanError (List PanObject) × Predefined × List String :=
  go names.dedup [] s []
where
  /-- The `for name in set(names)` loop, carrying `objs`, the cache state and
  the transport trace. -/
  go : List String → List PanObject → Predefined → List String →
      Except PanError (List PanObject) × Predefined × List String
  | [], objs, s, trace => (.ok objs, s, trace)
  | n :: rest, objs, s, trace =>
    match application dev n refresh_if_none include_containers s with
    | (.error e, s1, c1) => (.error e, s1, trace ++ c1)
    | (.ok obj, s1, c1) =>
      go rest (match obj with | some o => objs ++ [o] | none => objs) s1 (trace ++ c1)

/-- `services(names, ...)`: iterate over `set(names)`, collect the found
objects. -/
def services (dev : Device) (names : List String) (refresh_if_none : Bool)
    (s : Predefined) :
    Except PanError (List PanObject) × Predefined × List String :=
  go names.dedup [] s []
where
  /-- The `for name in set(names)` loop. -/
  go : List String → List PanObject → Predefined → List String →
      Except PanError (List PanObject) × Predefined × List String
  | [], objs, s, trace => (.ok objs, s, trace)
  | n :: rest, objs, s, trace =>
    match service dev n refresh_if_none s with
    | (.error e, s1, c1) => (.error e, s1, trace ++ c1)
    | (.ok obj, s1, c1) =>
      go rest (match obj with | some o => objs ++ [o] | none => objs) s1 (trace ++ c1)

/-- The pure two-map lookup performed by `application` before any refresh:
`application_objects` first, `application_container_objects` as a fallback
when `include_containers`. -/
def app_lookup (s : Predefined) (name : String) (include_containers : Bool) :
    Option PanObject :=
  let obj := s.application_objects.lookup name
  if obj.isNone && include_containers then
    s.application_container_objects.lookup name
  else obj

/-! ## Helper lemmas -/

theorem lookup_insertName_self (m : List (String × PanObject)) (k : String)
    (v : PanObject) : (insertName m k v).lookup k = some v := by
  induction m with
  | nil => simp [insertName]
  | cons hd tl ih =>
    obtain ⟨k', v'⟩ := hd
    by_cases h : k' = k
    · subst h; simp [insertName, List.lookup]
    · simp [insertName, h, List.lookup, ih,
        beq_eq_false_iff_ne.mpr (fun hh => h hh.symm)]

theorem lookup_insertName_ne (m : List (String × PanObject)) (k k' : String)
    (v : PanObject) (h : k ≠ k') :
    (insertName m k' v).lookup k = m.lookup k := by
  induction m with
  | nil => simp [insertName, List.lookup, beq_eq_false_iff_ne.mpr h]
  | cons hd tl ih =>
    obtain ⟨k₀, v₀⟩ := hd
    by_cases h0 : k₀ = k'
    · subst h0
      simp [insertName, List.lookup, beq_eq_false_iff_ne.mpr h,
        beq_eq_false_iff_ne.mpr (Ne.symm (h ∘ Eq.symm))]
    · by_cases h1 : k₀ = k
      · subst h1; simp [insertName, h, h0, List.lookup]
      · simp [insertName, h0, List.lookup, ih,
          beq_eq_false_iff_ne.mpr (fun hh : k = k₀ => h1 hh.symm)]

theorem parse_application_entry_service (s : Predefined) (elm : Xml) :
    (parse_application_entry s elm).service_objects = s.service_objects := by
  by_cases h : (elm.find "functions").isSome <;> simp [parse_application_entry, h]

theorem parse_application_foldl_service (l : List Xml) (s : Predefined) :
    (l.foldl parse_application_entry s).service_objects = s.service_objects := by
  induction l generalizing s with
  | nil => rfl
  | cons hd tl ih => rw [List.foldl_cons, ih, parse_application_entry_service]

theorem parse_service_entry_apps (s : Predefined) (elm : Xml) :
    (parse_service_entry s elm).application_objects = s.application_objects ∧
      (parse_service_entry s elm).application_container_objects =
        s.application_container_objects := by
  simp [parse_service_entry]

theorem parse_service_foldl_apps (l : List Xml) (s : Predefined) :
    (l.foldl parse_service_entry s).application_objects = s.application_objects ∧
      (l.foldl parse_service_entry s).application_container_objects =
        s.application_container_objects := by
  induction l generalizing s with
  | nil => exact ⟨rfl, rfl⟩
  | cons hd tl ih =>
    rw [List.foldl_cons]
    exact ⟨((ih _).1).trans (parse_service_entry_apps s hd).1,
      ((ih _).2).trans (parse_service_entry_apps s hd).2⟩

theorem parse_application_entry_lookup_ne (s : Predefined) (elm : Xml)
    (name : String) (h : name ≠ entryName elm) :
    (parse_application_entry s elm).application_objects.lookup name =
        s.application_objects.lookup name ∧
      (parse_application_entry s elm).application_container_objects.lookup name =
        s.application_container_objects.lookup name := by
  by_cases hf : (elm.find "functions").isSome <;>
    simp [parse_application_entry, hf, objRefresh, entryName] at h ⊢ <;>
    exact lookup_insertName_ne _ _ _ _ h

theorem parse_application_foldl_lookup_ne (l : List Xml) (s : Predefined)
    (name : String) (h : name ∉ l.map entryName) :
    (l.foldl parse_application_entry s).application_objects.lookup name =
        s.application_objects.lookup name ∧
      (l.foldl parse_application_entry s).application_container_objects.lookup name =
        s.application_container_objects.lookup name := by
  induction l generalizing s with
  | nil => exact ⟨rfl, rfl⟩
  | cons hd tl ih =>
    simp only [List.map_cons, List.mem_cons, not_or] at h
    rw [List.foldl_cons]
    have step := parse_application_entry_lookup_ne s hd name h.1
    have rest := ih (parse_application_entry s hd) h.2
    exact ⟨rest.1.trans step.1, rest.2.trans step.2⟩

theorem parse_service_entry_lookup_ne (s : Predefined) (elm : Xml)
    (name : String) (h : name ≠ entryName elm) :
    (parse_service_entry s elm).service_objects.lookup name =
      s.service_objects.lookup name := by
  simp only [parse_service_entry, objRefresh, entryName] at h ⊢
  exact lookup_insertName_ne _ _ _ _ h

theorem parse_service_foldl_lookup_ne (l : List Xml) (s : Predefined)
    (name : String) (h : name ∉ l.map entryName) :
    (l.foldl parse_service_entry s).service_objects.lookup name =
      s.service_objects.lookup name := by
  induction l generalizing s with
  | nil => rfl
  | cons hd tl ih =>
    simp only [List.map_cons, List.mem_cons, not_or] at h
    rw [List.foldl_cons]
    exact (ih _ h.2).trans (parse_service_entry_lookup_ne s hd name h.1)

theorem service_norefresh (dev : Device) (name : String) (s : Predefined) :
    service dev name false s = (.ok (s.service_objects.lookup name), s, []) := by
  rw [service]
  simp

theorem application_norefresh (dev : Device) (name : String)
    (include_containers : Bool) (s : Predefined) :
    application dev name false include_containers s =
      (.ok (app_lookup s name include_containers), s, []) := by
  rw [application]
  simp [app_lookup]

theorem refresh_application_trace (dev : Device) (name : String)
    (s : Predefined) :
    (refresh_application dev name s).2.2 = [single_application_xpath name] := by
  rcases h : get_xml dev (single_application_xpath name) with e | o
  · simp [refresh_application, h]
  · rcases o with _ | x <;> simp [refresh_application, h]

theorem refresh_service_trace (dev : Device) (name : String) (s : Predefined) :
    (refresh_service dev name s).2.2 = [single_service_xpath name] := by
  rcases h : get_xml dev (single_service_xpath name) with e | o
  · simp [refresh_service, h]
  · rcases o with _ | x <;> simp [refresh_service, h]

theorem refreshall_applications_trace (dev : Device) (s : Predefined) :
    (refreshall_applications dev s).2.2 = [all_application_entries_xpath] := by
  rcases h : get_xml dev all_application_entries_xpath with e | o
  · simp [refreshall_applications, h]
  · rcases o with _ | x <;> simp [refreshall_applications, h]

theorem refreshall_services_trace (dev : Device) (s : Predefined) :
    (refreshall_services dev s).2.2 = [all_service_entries_xpath] := by
  rcases h : get_xml dev all_service_entries_xpath with e | o
  · simp [refreshall_services, h]
  · rcases o with _ | x <;> simp [refreshall_services, h]

/-- Characterization of `service` with `refresh_if_none=True`: cached hit, or
one refresh followed by the cache read of the refreshed state. -/
theorem service_refresh_char (dev : Device) (name : String) (s : Predefined) :
    service dev name true s =
      match s.service_objects.lookup name with
      | some v => (.ok (some v), s, [])
      | none =>
        match refresh_service dev name s with
        | (.error e, s1, c1) => (.error e, s1, c1)
        | (.ok _, s1, c1) => (.ok (s1.service_objects.lookup name), s1, c1) := by
  rcases hk : s.service_objects.lookup name with _ | v
  · rw [service]
    simp only [hk, Option.isNone_none, Bool.true_and]
    rcases hr : refresh_service dev name s with ⟨r, s1, c1⟩
    rcases r with e | u
    · simp
    · simp [service_norefresh]
  · rw [service]
    simp [hk]

/-- Characterization of `application` with `refresh_if_none=True`. -/
theorem application_refresh_char (dev : Device) (name : String)
    (include_containers : Bool) (s : Predefined) :
    application dev name true include_containers s =
      match app_lookup s name include_containers with
      | some v => (.ok (some v), s, [])
      | none =>
        match refresh_application dev name s with
        | (.error e, s1, c1) => (.error e, s1, c1)
        | (.ok _, s1, c1) =>
          (.ok (app_lookup s1 name include_containers), s1, c1) := by
  rcases hk : app_lookup s name include_containers with _ | v
  · rw [application]
    simp only [app_lookup] at hk
    simp only [hk, Option.isNone_none, Bool.true_and]
    rcases hr : refresh_application dev name s with ⟨r, s1, c1⟩
    rcases r with e | u
    · simp
    · simp [application_norefresh]
  · rw [application]
    simp only [app_lookup] at hk
    simp [hk]

theorem entryXpath_eq (base pre : String) (h : base ++ ENTRY_PRE = pre)
    (name : String) : entryXpath base name = pre ++ (name ++ ENTRY_POST) := by
  rw [entryXpath, ← String.append_assoc, h]

/-! ## Concrete inputs used by the witnesses -/

/-- A device whose every response is an empty `<result/>` (zero matches). -/
def devEmpty : Device :=
  fun _ => .ok (.elem "response" [] [.elem "result" [] []])

/-- A device that reports "no such object" on every query. -/
def devNotFound : Device :=
  fun _ => .error PanError.objectNotFound

/-- An entry element carrying a `functions` child (an application container). -/
def elmContainer : Xml :=
  .elem "entry" [("name", "web-apps")] [.elem "functions" [] []]

/-- An entry element without a `functions` child (a plain application). -/
def elmPlain : Xml :=
  .elem "entry" [("name", "web-browsing")] []

/-! ## The claims -/

/-- C10: with `refresh_if_none=False`, `application` and `service` are pure
reads of the cache state: they pass no xpath to the transport client, leave
the three mappings unchanged, and return exactly the cache lookup. -/
theorem claim_C10_pure_lookup (dev : Device) (name : String) (b : Bool)
    (s : Predefined) :
    application dev name false b s = (.ok (app_lookup s name b), s, []) ∧
      service dev name false s = (.ok (s.service_objects.lookup name), s, []) :=
  ⟨application_norefresh dev name b s, service_norefresh dev name s⟩

/-- C8: the xpaths passed to the transport client are exactly the ones built
from the class constants: `/config/predefined/service/entry[@name='<name>']`
for `refresh_service`, `/config/predefined/service/entry` for
`refreshall_services`, the local-tag-name containment filter
`/config/predefined//*[contains(local-name(), "application")]/entry[@name='<name>']`
for `refresh_application`, and that combined path with `/entry` appended for
`refreshall_applications`. -/
theorem claim_C8_xpaths (dev : Device) (name : String) (s : Predefined) :
    (refresh_service dev name s).2.2 =
        ["/config/predefined/service/entry[@name='" ++ (name ++ "']")] ∧
      (refreshall_services dev s).2.2 = ["/config/predefined/service/entry"] ∧
      (refresh_application dev name s).2.2 =
        ["/config/predefined//*[contains(local-name(), \"application\")]/entry[@name='" ++
          (name ++ "']")] ∧
      (refreshall_applications dev s).2.2 =
        ["/config/predefined//*[contains(local-name(), \"application\")]/entry"] := by
  refine ⟨?_, ?_, ?_, ?_⟩
  · rw [refresh_service_trace, single_service_xpath,
      entryXpath_eq ALL_SERVICE_XPATH
        "/config/predefined/service/entry[@name='" (by decide) name]
    rfl
  · rw [refreshall_services_trace]
    decide
  · rw [refresh_application_trace, single_application_xpath,
      entryXpath_eq ALL_APPLICATION_XPATH
        "/config/predefined//*[contains(local-name(), \"application\")]/entry[@name='"
        (by decide) name]
    rfl
  · rw [refreshall_applications_trace]
    decide

/-- C2: when the device reports that no such predefined application exists,
`refresh_application` fails with the NotFoundError-class error of the
transport layer, propagated unchanged to the caller (the class has no
try/except), with the cache state untouched. -/
theorem claim_C2_notfound_propagates (dev : Device) (name : String)
    (s : Predefined)
    (h : reportsNoSuchObject dev (single_application_xpath name)) :
    refresh_application dev name s =
      (.error PanError.objectNotFound, s, [single_application_xpath name]) := by
  rw [reportsNoSuchObject] at h
  simp [refresh_application, get_xml, h]

theorem claim_C2_witness :
    refresh_application devNotFound "foo" Predefined.init =
      (.error PanError.objectNotFound, Predefined.init,
        [single_application_xpath "foo"]) :=
  claim_C2_notfound_propagates devNotFound "foo" Predefined.init rfl

/-- C3: an entry element with a `functions` child is parsed as an application
container and inserted, keyed by its name, into
`application_container_objects` only; one without is parsed as a plain
application and inserted into `application_objects` only. -/
theorem claim_C3_classification (s : Predefined) (elm : Xml) :
    ((elm.find "functions").isSome = true →
      (parse_application_entry s elm).application_container_objects.lookup
          (entryName elm) = some (objRefresh .applicationContainer elm) ∧
        (parse_application_entry s elm).application_objects =
          s.application_objects ∧
        (parse_application_entry s elm).service_objects = s.service_objects) ∧
    (elm.find "functions" = none →
      (parse_application_entry s elm).application_objects.lookup
          (entryName elm) = some (objRefresh .applicationObject elm) ∧
        (parse_application_entry s elm).application_container_objects =
          s.application_container_objects ∧
        (parse_application_entry s elm).service_objects = s.service_objects) := by
  constructor
  · intro h
    refine ⟨?_, by simp [parse_application_entry, h], by simp [parse_application_entry, h]⟩
    simp only [parse_application_entry, h, if_true]
    exact lookup_insertName_self _ _ _
  · intro h
    have h' : (elm.find "functions").isSome = false := by simp [h]
    refine ⟨?_, by simp [parse_application_entry, h'], by simp [parse_application_entry, h']⟩
    simp only [parse_application_entry, h', Bool.false_eq_true, if_false]
    exact lookup_insertName_self _ _ _

theorem claim_C3_witness :
    ((parse_application_entry Predefined.init elmContainer).application_container_objects.lookup
        (entryName elmContainer) = some (objRefresh .applicationContainer elmContainer) ∧
      (parse_application_entry Predefined.init elmContainer).application_objects =
        Predefined.init.application_objects ∧
      (parse_application_entry Predefined.init elmContainer).service_objects =
        Predefined.init.service_objects) ∧
    ((parse_application_entry Predefined.init elmPlain).application_objects.lookup
        (entryName elmPlain) = some (objRefresh .applicationObject elmPlain) ∧
      (parse_application_entry Predefined.init elmPlain).application_container_objects =
        Predefined.init.application_container_objects ∧
      (parse_application_entry Predefined.init elmPlain).service_objects =
        Predefined.init.service_objects) :=
  ⟨(claim_C3_classification Predefined.init elmContainer).1 rfl,
    (claim_C3_classification Predefined.init elmPlain).2 rfl⟩

/-- C7: for a name present only in the container mapping,
`application(name, include_containers=True)` returns the container object
(whatever `refresh_if_none` is) while
`application(name, refresh_if_none=False, include_containers=False)` returns
`None`; and after the one refresh of a miss, the retry uses the same
`include_containers` value. -/
theorem claim_C7_include_containers (dev : Device) (name : String) :
    (∀ (s : Predefined) (v : PanObject),
      s.application_objects.lookup name = none →
      s.application_container_objects.lookup name = some v →
      (∀ rin : Bool, application dev name rin true s = (.ok (some v), s, [])) ∧
        application dev name false false s = (.ok none, s, [])) ∧
    (∀ (t t1 : Predefined) (c : List String) (w : PanObject),
      t.application_objects.lookup name = none →
      t.application_container_objects.lookup name = none →
      refresh_application dev name t = (.ok (), t1, c) →
      t1.application_objects.lookup name = none →
      t1.application_container_objects.lookup name = some w →
      application dev name true true t = (.ok (some w), t1, c) ∧
        application dev name true false t = (.ok none, t1, c)) := by
  constructor
  · intro s v h1 h2
    have hl : app_lookup s name true = some v := by simp [app_lookup, h1, h2]
    have hl' : app_lookup s name false = none := by simp [app_lookup, h1]
    refine ⟨fun rin => ?_, ?_⟩
    · cases rin
      · rw [application_norefresh, hl]
      · rw [application_refresh_char, hl]
    · rw [application_norefresh, hl']
  · intro t t1 c w h1 h2 hr h1' h2'
    have hl : app_lookup t name true = none := by simp [app_lookup, h1, h2]
    have hl' : app_lookup t name false = none := by simp [app_lookup, h1]
    have hg : app_lookup t1 name true = some w := by simp [app_lookup, h1', h2']
    have hg' : app_lookup t1 name false = none := by simp [app_lookup, h1']
    constructor
    · rw [application_refresh_char, hl, hr]
      simp [hg]
    · rw [application_refresh_char, hl', hr]
      simp [hg']

/-- A device answering every query with one container entry. -/
def devContainer : Device :=
  fun _ => .ok (.elem "response" [] [.elem "result" [] [elmContainer]])

/-- The container object parsed from `elmContainer`. -/
def containerObj : PanObject := objRefresh .applicationContainer elmContainer

/-- The cache state holding only `containerObj`. -/
def stateC : Predefined :=
  { service_objects := [], application_objects := [],
    application_container_objects := [("web-apps", containerObj)] }

theorem claim_C7_witness :
    (application devContainer "web-apps" true true stateC =
        (.ok (some containerObj), stateC, []) ∧
      application devContainer "web-apps" false false stateC =
        (.ok none, stateC, [])) ∧
    (application devContainer "web-apps" true true Predefined.init =
        (.ok (some containerObj), stateC, [single_application_xpath "web-apps"]) ∧
      application devContainer "web-apps" true false Predefined.init =
        (.ok none, stateC, [single_application_xpath "web-apps"])) :=
  ⟨⟨((claim_C7_include_containers devContainer "web-apps").1 stateC containerObj
        rfl rfl).1 true,
    ((claim_C7_include_containers devContainer "web-apps").1 stateC containerObj
        rfl rfl).2⟩,
    (claim_C7_include_containers devContainer "web-apps").2 Predefined.init stateC
      [single_application_xpath "web-apps"] containerObj rfl rfl rfl rfl rfl⟩

/-- C1: on a name absent from both application mappings,
`application(name, refresh_if_none=True)` performs exactly one
`refresh_application(name)` transport fetch, then repeats the lookup once
with refreshing disabled on the refreshed state; if the name is still absent
it returns `None`, and no second refresh happens. -/
theorem claim_C1_single_refresh (dev : Device) (name : String) (ic : Bool)
    (s s1 : Predefined) (c : List String)
    (h1 : s.application_objects.lookup name = none)
    (h2 : s.application_container_objects.lookup name = none)
    (hr : refresh_application dev name s = (.ok (), s1, c)) :
    application dev name true ic s =
        (.ok (app_lookup s1 name ic), s1, [single_application_xpath name]) ∧
      (app_lookup s1 name ic = none →
        application dev name true ic s =
          (.ok none, s1, [single_application_xpath name])) := by
  have hl : app_lookup s name ic = none := by
    cases ic <;> simp [app_lookup, h1, h2]
  have hc : c = [single_application_xpath name] := by
    have ht := refresh_application_trace dev name s
    rw [hr] at ht
    exact ht
  have hmain : application dev name true ic s =
      (.ok (app_lookup s1 name ic), s1, [single_application_xpath name]) := by
    rw [application_refresh_char, hl, hr, hc]
  exact ⟨hmain, fun habs => by rw [hmain, habs]⟩

theorem claim_C1_witness :
    application devEmpty "missing" true true Predefined.init =
      (.ok none, Predefined.init, [single_application_xpath "missing"]) :=
  (claim_C1_single_refresh devEmpty "missing" true Predefined.init
      Predefined.init [single_application_xpath "missing"] rfl rfl rfl).2 rfl

/-- C9: pull-through idempotence of `service`.  If a call with
`refresh_if_none=True` returned an object, that call made at most one
transport fetch, and repeating the call on the resulting state returns the
cached object with no transport fetch at all. -/
theorem claim_C9_pull_through (dev : Device) (name : String) (s s1 : Predefined)
    (c : List String) (v : PanObject)
    (h : service dev name true s = (.ok (some v), s1, c)) :
    service dev name true s1 = (.ok (some v), s1, []) ∧ c.length ≤ 1 := by
  rw [service_refresh_char] at h
  rcases hk : s.service_objects.lookup name with _ | w
  · rw [hk] at h
    rcases hr : refresh_service dev name s with ⟨r, s', c'⟩
    rw [hr] at h
    rcases r with e | u
    · simp at h
    · simp only [Prod.mk.injEq, Except.ok.injEq] at h
      obtain ⟨hv, hs, hcc⟩ := h
      have hc' : c' = [single_service_xpath name] := by
        have ht := refresh_service_trace dev name s
        rw [hr] at ht
        exact ht
      subst hs
      constructor
      · rw [service_refresh_char, hv]
      · rw [← hcc, hc']
        simp
  · rw [hk] at h
    simp only [Prod.mk.injEq, Except.ok.injEq, Option.some.injEq] at h
    obtain ⟨hv, hs, hcc⟩ := h
    subst hv hs
    constructor
    · rw [service_refresh_char, hk]
    · rw [← hcc]
      decide

/-- A result fragment with one plain entry named `tcp-80`. -/
def resultS : Xml := .elem "result" [] [.elem "entry" [("name", "tcp-80")] []]

/-- A response root wrapping `resultS`. -/
def rootS : Xml := .elem "response" [] [resultS]

/-- A device answering every query with one plain service entry named `tcp-80`. -/
def devService : Device := fun _ => .ok rootS

/-- The service object parsed from the `tcp-80` entry. -/
def serviceObj : PanObject :=
  objRefresh .serviceObject (.elem "entry" [("name", "tcp-80")] [])

/-- The cache state holding only `serviceObj`. -/
def stateS : Predefined :=
  { service_objects := [("tcp-80", serviceObj)], application_objects := [],
    application_container_objects := [] }

theorem claim_C9_witness :
    service devService "tcp-80" true stateS = (.ok (some serviceObj), stateS, []) ∧
      (single_service_xpath "tcp-80" :: []).length ≤ 1 := by
  have h : service devService "tcp-80" true Predefined.init =
      (.ok (some serviceObj), stateS, single_service_xpath "tcp-80" :: []) := by
    rw [service_refresh_char]
    rfl
  exact claim_C9_pull_through devService "tcp-80" Predefined.init stateS
    (single_service_xpath "tcp-80" :: []) serviceObj h

/-- C4: `refreshall` first empties all three mappings and then queries the
bulk services xpath followed by the bulk applications xpath; a name absent
from both bulk responses is absent from every mapping afterwards, whatever
was cached before. -/
theorem claim_C4_refreshall (dev : Device) (s : Predefined) (name : String)
    (r1 x1 r2 x2 : Xml)
    (hs : dev all_service_entries_xpath = .ok r1)
    (hs1 : r1.find "result" = some x1)
    (ha : dev all_application_entries_xpath = .ok r2)
    (ha1 : r2.find "result" = some x2)
    (hn1 : name ∉ entryNames x1) (hn2 : name ∉ entryNames x2) :
    (∀ t : Predefined, refreshall dev s = refreshall dev t) ∧
      (refreshall dev s).2.2 =
        [all_service_entries_xpath, all_application_entries_xpath] ∧
      (refreshall dev s).1 = .ok () ∧
      (refreshall dev s).2.1.service_objects.lookup name = none ∧
      (refreshall dev s).2.1.application_objects.lookup name = none ∧
      (refreshall dev s).2.1.application_container_objects.lookup name = none := by
  have hall : refreshall dev s =
      (.ok (), parse_application_xml (parse_service_xml ⟨[], [], []⟩ x1) x2,
        [all_service_entries_xpath, all_application_entries_xpath]) := by
    simp [refreshall, refreshall_services, refreshall_applications, get_xml,
      hs, hs1, ha, ha1]
  refine ⟨fun t => rfl, ?_, ?_, ?_, ?_, ?_⟩ <;> rw [hall]
  · simp only [parse_application_xml, parse_service_xml,
      parse_application_foldl_service]
    rw [parse_service_foldl_lookup_ne x1.children _ name hn1]
    rfl
  · simp only [parse_application_xml, parse_service_xml]
    rw [(parse_application_foldl_lookup_ne x2.children _ name hn2).1,
      (parse_service_foldl_apps x1.children _).1]
    rfl
  · simp only [parse_application_xml, parse_service_xml]
    rw [(parse_application_foldl_lookup_ne x2.children _ name hn2).2,
      (parse_service_foldl_apps x1.children _).2]
    rfl

theorem claim_C4_witness :
    refreshall devService Predefined.init = refreshall devService stateC ∧
      (refreshall devService Predefined.init).2.2 =
        [all_service_entries_xpath, all_application_entries_xpath] ∧
      (refreshall devService Predefined.init).1 = .ok () ∧
      (refreshall devService Predefined.init).2.1.service_objects.lookup
        "missing" = none ∧
      (refreshall devService Predefined.init).2.1.application_objects.lookup
        "missing" = none ∧
      (refreshall devService Predefined.init).2.1.application_container_objects.lookup
        "missing" = none := by
  have h := claim_C4_refreshall devService Predefined.init "missing"
    rootS resultS rootS resultS rfl rfl rfl rfl (by decide) (by decide)
  exact ⟨h.1 stateC, h.2.1, h.2.2.1, h.2.2.2.1, h.2.2.2.2.1, h.2.2.2.2.2⟩

/-- C5: the bulk refreshes are additive upserts.  `refreshall_applications`
leaves `service_objects` unchanged entirely and preserves every application
or container entry whose name the device's bulk response does not mention;
`refreshall_services` is the analogue with the roles swapped. -/
theorem claim_C5_upsert (dev : Device) (s : Predefined) (name : String)
    (r x rs xs : Xml)
    (ha : dev all_application_entries_xpath = .ok r)
    (hx : r.find "result" = some x)
    (hn : name ∉ entryNames x)
    (hb : dev all_service_entries_xpath = .ok rs)
    (hxs : rs.find "result" = some xs)
    (hns : name ∉ entryNames xs) :
    (refreshall_applications dev s).2.1.service_objects = s.service_objects ∧
      (refreshall_applications dev s).2.1.application_objects.lookup name =
        s.application_objects.lookup name ∧
      (refreshall_applications dev s).2.1.application_container_objects.lookup
        name = s.application_container_objects.lookup name ∧
      (refreshall_services dev s).2.1.application_objects =
        s.application_objects ∧
      (refreshall_services dev s).2.1.application_container_objects =
        s.application_container_objects ∧
      (refreshall_services dev s).2.1.service_objects.lookup name =
        s.service_objects.lookup name := by
  have h1 : refreshall_applications dev s =
      (.ok (), parse_application_xml s x, [all_application_entries_xpath]) := by
    simp [refreshall_applications, get_xml, ha, hx]
  have h2 : refreshall_services dev s =
      (.ok (), parse_service_xml s xs, [all_service_entries_xpath]) := by
    simp [refreshall_services, get_xml, hb, hxs]
  refine ⟨?_, ?_, ?_, ?_, ?_, ?_⟩
  · rw [h1]
    exact parse_application_foldl_service x.children s
  · rw [h1]
    exact (parse_application_foldl_lookup_ne x.children s name hn).1
  · rw [h1]
    exact (parse_application_foldl_lookup_ne x.children s name hn).2
  · rw [h2]
    exact (parse_service_foldl_apps xs.children s).1
  · rw [h2]
    exact (parse_service_foldl_apps xs.children s).2
  · rw [h2]
    exact parse_service_foldl_lookup_ne xs.children s name hns

theorem claim_C5_witness :
    (refreshall_applications devService stateC).2.1.service_objects =
        stateC.service_objects ∧
      (refreshall_applications devService stateC).2.1.application_objects.lookup
        "web-apps" = stateC.application_objects.lookup "web-apps" ∧
      (refreshall_applications devService stateC).2.1.application_container_objects.lookup
        "web-apps" = stateC.application_container_objects.lookup "web-apps" ∧
      (refreshall_services devService stateC).2.1.application_objects =
        stateC.application_objects ∧
      (refreshall_services devService stateC).2.1.application_container_objects =
        stateC.application_container_objects ∧
      (refreshall_services devService stateC).2.1.service_objects.lookup
        "web-apps" = stateC.service_objects.lookup "web-apps" :=
  claim_C5_upsert devService stateC "web-apps" rootS resultS rootS resultS
    rfl rfl (by decide) rfl rfl (by decide)

/-- The device answers the query without raising and the response carries a
`result` child, so `_get_xml` returns a fragment (possibly with no entries). -/
def devGood (dev : Device) (xpath : String) : Prop :=
  ∃ root x, dev xpath = .ok root ∧ root.find "result" = some x

theorem service_trace_le_one (dev : Device) (name : String) (rin : Bool)
    (s : Predefined) : (service dev name rin s).2.2.length ≤ 1 := by
  cases rin
  · rw [service_norefresh]
    simp
  · rw [service_refresh_char]
    rcases hk : s.service_objects.lookup name with _ | v
    · rcases hr : refresh_service dev name s with ⟨r, s1, c1⟩
      have hc1 : c1 = [single_service_xpath name] := by
        have ht := refresh_service_trace dev name s
        rw [hr] at ht
        exact ht
      rcases r with e | u <;> simp [hc1]
    · simp

theorem application_trace_le_one (dev : Device) (name : String) (rin ic : Bool)
    (s : Predefined) : (application dev name rin ic s).2.2.length ≤ 1 := by
  cases rin
  · rw [application_norefresh]
    simp
  · rw [application_refresh_char]
    rcases hk : app_lookup s name ic with _ | v
    · rcases hr : refresh_application dev name s with ⟨r, s1, c1⟩
      have hc1 : c1 = [single_application_xpath name] := by
        have ht := refresh_application_trace dev name s
        rw [hr] at ht
        exact ht
      rcases r with e | u <;> simp [hc1]
    · simp

theorem service_ok_of_good (dev : Device) (name : String) (rin : Bool)
    (s : Predefined) (h : rin = true → devGood dev (single_service_xpath name)) :
    ∃ o s1 c, service dev name rin s = (.ok o, s1, c) := by
  cases rin
  · exact ⟨_, _, _, service_norefresh dev name s⟩
  · rw [service_refresh_char]
    rcases hk : s.service_objects.lookup name with _ | v
    · obtain ⟨root, x, hdev, hfind⟩ := h rfl
      have hr : refresh_service dev name s =
          (.ok (), parse_service_xml s x, [single_service_xpath name]) := by
        simp [refresh_service, get_xml, hdev, hfind]
      rw [hr]
      exact ⟨_, _, _, rfl⟩
    · exact ⟨_, _, _, rfl⟩

theorem application_ok_of_good (dev : Device) (name : String) (rin ic : Bool)
    (s : Predefined)
    (h : rin = true → devGood dev (single_application_xpath name)) :
    ∃ o s1 c, application dev name rin ic s = (.ok o, s1, c) := by
  cases rin
  · exact ⟨_, _, _, application_norefresh dev name ic s⟩
  · rw [application_refresh_char]
    rcases hk : app_lookup s name ic with _ | v
    · obtain ⟨root, x, hdev, hfind⟩ := h rfl
      have hr : refresh_application dev name s =
          (.ok (), parse_application_xml s x, [single_application_xpath name]) := by
        simp [refresh_application, get_xml, hdev, hfind]
      rw [hr]
      exact ⟨_, _, _, rfl⟩
    · exact ⟨_, _, _, rfl⟩

theorem services_go_trace (dev : Device) (rin : Bool) (l : List String)
    (objs : List PanObject) (s : Predefined) (tr : List String) :
    (services.go dev rin l objs s tr).2.2.length ≤ tr.length + l.length := by
  induction l generalizing objs s tr with
  | nil => simp [services.go]
  | cons n rest ih =>
    rcases hsv : service dev n rin s with ⟨r, s1, c1⟩
    have hc1 : c1.length ≤ 1 := by
      have ht := service_trace_le_one dev n rin s
      rw [hsv] at ht
      exact ht
    rcases r with e | o
    · simp only [services.go, hsv]
      rw [List.length_append]
      simp only [List.length_cons]
      omega
    · rcases o with _ | ob
      · simp only [services.go, hsv]
        have := ih objs s1 (tr ++ c1)
        rw [List.length_append] at this
        simp only [List.length_cons]
        omega
      · simp only [services.go, hsv]
        have := ih (objs ++ [ob]) s1 (tr ++ c1)
        rw [List.length_append] at this
        simp only [List.length_cons]
        omega

theorem applications_go_trace (dev : Device) (rin ic : Bool) (l : List String)
    (objs : List PanObject) (s : Predefined) (tr : List String) :
    (applications.go dev rin ic l objs s tr).2.2.length ≤ tr.length + l.length := by
  induction l generalizing objs s tr with
  | nil => simp [applications.go]
  | cons n rest ih =>
    rcases hsv : application dev n rin ic s with ⟨r, s1, c1⟩
    have hc1 : c1.length ≤ 1 := by
      have ht := application_trace_le_one dev n rin ic s
      rw [hsv] at ht
      exact ht
    rcases r with e | o
    · simp only [applications.go, hsv]
      rw [List.length_append]
      simp only [List.length_cons]
      omega
    · rcases o with _ | ob
      · simp only [applications.go, hsv]
        have := ih objs s1 (tr ++ c1)
        rw [List.length_append] at this
        simp only [List.length_cons]
        omega
      · simp only [applications.go, hsv]
        have := ih (objs ++ [ob]) s1 (tr ++ c1)
        rw [List.length_append] at this
        simp only [List.length_cons]
        omega

theorem services_go_len (dev : Device) (rin : Bool) (l : List String)
    (objs : List PanObject) (s : Predefined) (tr : List String)
    (objs' : List PanObject) (s' : Predefined) (tr' : List String)
    (h : services.go dev rin l objs s tr = (.ok objs', s', tr')) :
    objs'.length ≤ objs.length + l.length := by
  induction l generalizing objs s tr with
  | nil =>
    simp only [services.go, Prod.mk.injEq, Except.ok.injEq] at h
    rw [← h.1]
    simp
  | cons n rest ih =>
    rcases hsv : service dev n rin s with ⟨r, s1, c1⟩
    rcases r with e | o
    · simp only [services.go, hsv] at h
      simp at h
    · rcases o with _ | ob
      · simp only [services.go, hsv] at h
        have hlen := ih objs s1 (tr ++ c1) h
        simp only [List.length_cons]
        omega
      · simp only [services.go, hsv] at h
        have hlen := ih (objs ++ [ob]) s1 (tr ++ c1) h
        simp only [List.length_append, List.length_cons, List.length_nil] at hlen ⊢
        omega

theorem applications_go_len (dev : Device) (rin ic : Bool) (l : List String)
    (objs : List PanObject) (s : Predefined) (tr : List String)
    (objs' : List PanObject) (s' : Predefined) (tr' : List String)
    (h : applications.go dev rin ic l objs s tr = (.ok objs', s', tr')) :
    objs'.length ≤ objs.length + l.length := by
  induction l generalizing objs s tr with
  | nil =>
    simp only [applications.go, Prod.mk.injEq, Except.ok.injEq] at h
    rw [← h.1]
    simp
  | cons n rest ih =>
    rcases hsv : application dev n rin ic s with ⟨r, s1, c1⟩
    rcases r with e | o
    · simp only [applications.go, hsv] at h
      simp at h
    · rcases o with _ | ob
      · simp only [applications.go, hsv] at h
        have hlen := ih objs s1 (tr ++ c1) h
        simp only [List.length_cons]
        omega
      · simp only [applications.go, hsv] at h
        have hlen := ih (objs ++ [ob]) s1 (tr ++ c1) h
        simp only [List.length_append, List.length_cons, List.length_nil] at hlen ⊢
        omega

theorem services_go_ok (dev : Device) (rin : Bool) (l : List String)
    (objs : List PanObject) (s : Predefined) (tr : List String)
    (h : ∀ n ∈ l, rin = true → devGood dev (single_service_xpath n)) :
    ∃ objs' s' tr', services.go dev rin l objs s tr = (.ok objs', s', tr') := by
  induction l generalizing objs s tr with
  | nil => exact ⟨objs, s, tr, rfl⟩
  | cons n rest ih =>
    obtain ⟨o, s1, c1, hsv⟩ :=
      service_ok_of_good dev n rin s (h n (List.mem_cons_self n rest))
    rcases o with _ | ob
    · have := ih objs s1 (tr ++ c1)
        (fun m hm => h m (List.mem_cons_of_mem n hm))
      simpa [services.go, hsv] using this
    · have := ih (objs ++ [ob]) s1 (tr ++ c1)
        (fun m hm => h m (List.mem_cons_of_mem n hm))
      simpa [services.go, hsv] using this

theorem applications_go_ok (dev : Device) (rin ic : Bool) (l : List String)
    (objs : List PanObject) (s : Predefined) (tr : List String)
    (h : ∀ n ∈ l, rin = true → devGood dev (single_application_xpath n)) :
    ∃ objs' s' tr',
      applications.go dev rin ic l objs s tr = (.ok objs', s', tr') := by
  induction l generalizing objs s tr with
  | nil => exact ⟨objs, s, tr, rfl⟩
  | cons n rest ih =>
    obtain ⟨o, s1, c1, hsv⟩ :=
      application_ok_of_good dev n rin ic s (h n (List.mem_cons_self n rest))
    rcases o with _ | ob
    · have := ih objs s1 (tr ++ c1)
        (fun m hm => h m (List.mem_cons_of_mem n hm))
      simpa [applications.go, hsv] using this
    · have := ih (objs ++ [ob]) s1 (tr ++ c1)
        (fun m hm => h m (List.mem_cons_of_mem n hm))
      simpa [applications.go, hsv] using this

theorem services_go_norefresh (dev : Device) (l : List String)
    (objs : List PanObject) (s : Predefined) (tr : List String) :
    services.go dev false l objs s tr =
      (.ok (objs ++ l.filterMap (fun n => s.service_objects.lookup n)), s, tr) := by
  induction l generalizing objs tr with
  | nil => simp [services.go]
  | cons n rest ih =>
    simp only [services.go, service_norefresh]
    rcases hk : s.service_objects.lookup n with _ | v
    · simp [List.filterMap_cons, hk, ih]
    · simp [List.filterMap_cons, hk, ih]

theorem applications_go_norefresh (dev : Device) (ic : Bool) (l : List String)
    (objs : List PanObject) (s : Predefined) (tr : List String) :
    applications.go dev false ic l objs s tr =
      (.ok (objs ++ l.filterMap (fun n => app_lookup s n ic)), s, tr) := by
  induction l generalizing objs tr with
  | nil => simp [applications.go]
  | cons n rest ih =>
    simp only [applications.go, application_norefresh]
    rcases hk : app_lookup s n ic with _ | v
    · simp [List.filterMap_cons, hk, ih]
    · simp [List.filterMap_cons, hk, ih]

/-- C6: `services(names)` and `applications(names)` iterate over the
deduplicated names (so passing `names` or its deduplication is the same
call), pass at most one xpath to the transport per distinct name, return at
most one object per distinct name, return normally whenever each distinct
name's device query succeeds (a name with no object is silently omitted, it
raises nothing), and with refreshing disabled the result is exactly the list
of cache hits among the distinct names. -/
theorem claim_C6_batch (dev : Device) (names : List String) (rin ic : Bool)
    (s : Predefined) :
    (services dev names rin s = services dev names.dedup rin s ∧
      (services dev names rin s).2.2.length ≤ names.dedup.length ∧
      (∀ objs s' tr, services dev names rin s = (.ok objs, s', tr) →
        objs.length ≤ names.dedup.length) ∧
      ((∀ n ∈ names.dedup, rin = true → devGood dev (single_service_xpath n)) →
        ∃ objs s' tr, services dev names rin s = (.ok objs, s', tr)) ∧
      services dev names false s =
        (.ok (names.dedup.filterMap (fun n => s.service_objects.lookup n)),
          s, [])) ∧
    (applications dev names rin ic s = applications dev names.dedup rin ic s ∧
      (applications dev names rin ic s).2.2.length ≤ names.dedup.length ∧
      (∀ objs s' tr, applications dev names rin ic s = (.ok objs, s', tr) →
        objs.length ≤ names.dedup.length) ∧
      ((∀ n ∈ names.dedup, rin = true →
          devGood dev (single_application_xpath n)) →
        ∃ objs s' tr, applications dev names rin ic s = (.ok objs, s', tr)) ∧
      applications dev names false ic s =
        (.ok (names.dedup.filterMap (fun n => app_lookup s n ic)), s, [])) := by
  refine ⟨⟨?_, ?_, ?_, ?_, ?_⟩, ?_, ?_, ?_, ?_, ?_⟩
  · rw [services, services, List.dedup_idem]
  · have := services_go_trace dev rin names.dedup [] s []
    simpa [services] using this
  · intro objs s' tr h
    rw [services] at h
    have := services_go_len dev rin names.dedup [] s [] objs s' tr h
    simpa using this
  · intro hgood
    rw [services]
    exact services_go_ok dev rin names.dedup [] s [] hgood
  · rw [services, services_go_norefresh]
    simp
  · rw [applications, applications, List.dedup_idem]
  · have := applications_go_trace dev rin ic names.dedup [] s []
    simpa [applications] using this
  · intro objs s' tr h
    rw [applications] at h
    have := applications_go_len dev rin ic names.dedup [] s [] objs s' tr h
    simpa using this
  · intro hgood
    rw [applications]
    exact applications_go_ok dev rin ic names.dedup [] s [] hgood
  · rw [applications, applications_go_norefresh]
    simp

theorem claim_C6_witness :
    services devEmpty ["tcp-80", "tcp-80", "missing"] true stateS =
        services devEmpty (["tcp-80", "tcp-80", "missing"] : List String).dedup
          true stateS ∧
      (services devEmpty ["tcp-80", "tcp-80", "missing"] true stateS).2.2.length ≤
        ((["tcp-80", "tcp-80", "missing"] : List String).dedup).length ∧
      ([serviceObj] : List PanObject).length ≤
        ((["tcp-80", "tcp-80", "missing"] : List String).dedup).length ∧
      (∃ objs s' tr,
        services devEmpty ["tcp-80", "tcp-80", "missing"] true stateS =
          (.ok objs, s', tr)) ∧
      services devEmpty ["tcp-80", "tcp-80", "missing"] false stateS =
        (.ok [serviceObj], stateS, []) ∧
      (∃ objs s' tr,
        applications devEmpty ["web-apps", "missing"] true true stateC =
          (.ok objs, s', tr)) ∧
      applications devEmpty ["web-apps", "missing"] false true stateC =
        (.ok [containerObj], stateC, []) := by
  have h := claim_C6_batch devEmpty ["tcp-80", "tcp-80", "missing"] true true stateS
  have h2 := claim_C6_batch devEmpty ["web-apps", "missing"] true true stateC
  have e1 : service devEmpty "tcp-80" true stateS =
      (.ok (some serviceObj), stateS, []) := by
    rw [service_refresh_char]
    rfl
  have e2 : service devEmpty "missing" true stateS =
      (.ok none, stateS, [single_service_xpath "missing"]) := by
    rw [service_refresh_char]
    rfl
  have hsv : services devEmpty ["tcp-80", "tcp-80", "missing"] true stateS =
      (.ok [serviceObj], stateS, [single_service_xpath "missing"]) := by
    rw [services,
      show (["tcp-80", "tcp-80", "missing"] : List String).dedup =
        ["tcp-80", "missing"] by decide]
    simp [services.go, e1, e2]
  have hgood : ∀ n ∈ (["tcp-80", "tcp-80", "missing"] : List String).dedup,
      true = true → devGood devEmpty (single_service_xpath n) :=
    fun _ _ _ => ⟨Xml.elem "response" [] [Xml.elem "result" [] []],
      Xml.elem "result" [] [], rfl, rfl⟩
  have hgood2 : ∀ n ∈ (["web-apps", "missing"] : List String).dedup,
      true = true → devGood devEmpty (single_application_xpath n) :=
    fun _ _ _ => ⟨Xml.elem "response" [] [Xml.elem "result" [] []],
      Xml.elem "result" [] [], rfl, rfl⟩
  exact ⟨h.1.1, h.1.2.1,
    h.1.2.2.1 [serviceObj] stateS [single_service_xpath "missing"] hsv,
    h.1.2.2.2.1 hgood, by rw [h.1.2.2.2.2]; rfl,
    h2.2.2.2.2.1 hgood2, by rw [h2.2.2.2.2.2]; rfl⟩

end PanPredefined
